import Mathlib

/-!
Shallow embedding of the session layer of the spectrum reverse proxy
(`session/session.go`): the per-player `Session` lifecycle, the `Transfer`
handshake, and `Close`/`Disconnect` teardown.

Collaborators that are external to the core (the tracker's clear operations,
the animation strategy's `Play`/`Clear` hooks, the registry's add/remove,
the connection library's packet writes) are modelled as observable events:
each run of an operation yields, besides its result and the next session
state, the ordered trace of collaborator calls and client-visible packets
it performs.  Dialing a backend is modelled by an oracle argument
(`Except String Conn`): the source calls `server.Dialer.Dial`, whose outcome
is decided by the network.
-/

namespace Spectrum

/-- The game data a backend connection reports (`server.Conn.GameData()`),
restricted to the fields `session.go` reads.  `posX`/`posZ` stand for the
already-truncated values `int32(pos.X())` and `int32(pos.Z())` — the source
converts the float player position to `int32` before any arithmetic, so the
embedding takes the converted integers as the data. -/
structure GameData where
  dimension : Int
  posX : Int
  posZ : Int
  entityRuntimeID : Nat
  difficulty : Nat
  playerGameMode : Int
  gameRules : List String
  deriving Repr, DecidableEq

/-- A backend connection handle (`server.Conn`): an identity, the game data
it reports, and the packets it buffered during its handshake
(`ReadDeferred()`), kept opaque as numbers in arrival order. -/
structure Conn where
  id : Nat
  gameData : GameData
  deferred : List Nat
  deriving Repr, DecidableEq

/-- Client-visible packets and collaborator calls performed by the session
core, in the order the source performs them. -/
inductive Event where
  /-- `sendMetadata(noAI)`: the `SetActorData` packet suppressing
  (`noAI = true`) or restoring (`noAI = false`) AI on the client entity. -/
  | setActorData (noAI : Bool)
  /-- `s.Dial(addr)`: a dial attempt towards a backend address. -/
  | dial (addr : String)
  /-- `s.animation.Play(clientConn, gd)`. -/
  | animationPlay (gd : GameData)
  /-- A `packet.LevelChunk` write: dimension tag, chunk position,
  sub-chunk count, and the dimension `emptyChunk` built the payload for. -/
  | levelChunk (dimension : Int) (x z : Int) (subChunkCount : Nat) (payloadDim : Int)
  /-- `s.tracker.clearEffects(s)`. -/
  | clearEffects
  /-- `s.tracker.clearEntities(s)`. -/
  | clearEntities
  /-- `s.tracker.clearBossBars(s)`. -/
  | clearBossBars
  /-- `s.tracker.clearPlayers(s)`. -/
  | clearPlayers
  /-- `s.tracker.clearScoreboards(s)`. -/
  | clearScoreboards
  /-- The `packet.MovePlayer` reset carrying the new backend's position. -/
  | movePlayer (gd : GameData)
  /-- `packet.LevelEvent` with `LevelEventStopRaining`, data 10000. -/
  | stopRaining (eventData : Nat)
  /-- `packet.LevelEvent` with `LevelEventStopThunderstorm`. -/
  | stopThunderstorm
  /-- `packet.SetDifficulty`. -/
  | setDifficulty (d : Nat)
  /-- `packet.SetPlayerGameType`. -/
  | setPlayerGameType (g : Int)
  /-- `packet.GameRulesChanged`. -/
  | gameRulesChanged (rules : List String)
  /-- `s.animation.Clear(clientConn, gd)`. -/
  | animationClear (gd : GameData)
  /-- `Close()` on a backend connection; `none` when the field held `nil`. -/
  | closeServerConn (id : Option Nat)
  /-- The write of the new address and connection into the session. -/
  | publish (addr : String) (id : Nat)
  /-- Forwarding one opaque packet to the client (`clientConn.WritePacket`). -/
  | writePacket (pk : Nat)
  /-- `clientConn.StartGame(serverConn.GameData())`. -/
  | startGame (gd : GameData)
  /-- `clientConn.Close()`. -/
  | closeClientConn
  /-- `registry.RemoveSession(identity.XUID)`. -/
  | removeSession
  /-- `registry.AddSession(clientConn.IdentityData().XUID, s)`. -/
  | addSession
  /-- Launch of `handleIncoming` and `handleOutgoing`. -/
  | startPumps
  /-- Launch of `handleLatency`. -/
  | startLatency
  /-- The `packet.Disconnect` notice sent by `Disconnect`. -/
  | disconnectPacket (msg : String)
  deriving Repr, DecidableEq

/-- The mutable state of a `Session` that the claims concern: the active
backend address and connection (guarded by `serverMu`), whether the write
side of `serverMu` is held, the `transferring` flag, and whether the
`sync.Once` guarding `Close` has fired. -/
structure SessionState where
  serverAddr : String
  serverConn : Option Conn
  muLocked : Bool
  transferring : Bool
  closed : Bool
  deriving Repr, DecidableEq

/-- The errors `Transfer` can return: the `errors.New("already transferring")`
conflict, or the error propagated from a failed dial. -/
inductive TransferError where
  | alreadyTransferring
  | dialError (e : String)
  deriving Repr, DecidableEq

/-- `packet.DimensionNether` (gophertunnel: Overworld 0, Nether 1, End 2). -/
def dimensionNether : Int := 1

/-- The nine chunk coordinates `c-4, …, c+4` visited by one leg of the
flood loop `for x := chunkX - 4; x <= chunkX+4; x++`. -/
def chunkSquare (c : Int) : List Int :=
  (List.range 9).map (fun i => c - 4 + i)

/-- The synthetic chunk flood of `Transfer`: one `LevelChunk` per position of
the 9×9 square centered on the chunk containing the new backend's player
position, tagged `packet.DimensionNether`, with `SubChunkCount: 1` and the
`emptyChunk(serverGameData.Dimension)` payload.  `int32 >> 4` is arithmetic
shift, i.e. flooring division by 16. -/
def chunkFloodEvents (gd : GameData) : List Event :=
  let chunkX := Int.fdiv gd.posX 16
  let chunkZ := Int.fdiv gd.posZ 16
  (chunkSquare chunkX).flatMap (fun x =>
    (chunkSquare chunkZ).map (fun z =>
      Event.levelChunk dimensionNether x z 1 gd.dimension))

/-- `Session.Transfer(addr)`.  `dialResult` is the oracle for
`s.Dial(addr)`.  Returns the error result (`none` on success), the state
after the call, and the trace of events in program order. -/
def transfer (s : SessionState) (addr : String) (dialResult : Except String Conn) :
    Option TransferError × SessionState × List Event :=
  if s.transferring then
    (some .alreadyTransferring, s, [])
  else
    let s1 : SessionState := { s with transferring := true, muLocked := true }
    match dialResult with
    | .error e =>
        (some (.dialError e),
         { s1 with muLocked := false, transferring := false },
         [.setActorData true, .dial addr, .setActorData false])
    | .ok conn =>
        let gd := conn.gameData
        (none,
         { s1 with
             serverAddr := addr
             serverConn := some conn
             muLocked := false
             transferring := false },
         [.setActorData true, .dial addr, .animationPlay gd]
           ++ chunkFloodEvents gd
           ++ [.clearEffects, .clearEntities, .clearBossBars, .clearPlayers,
               .clearScoreboards,
               .movePlayer gd,
               .stopRaining 10000, .stopThunderstorm,
               .setDifficulty gd.difficulty, .setPlayerGameType gd.playerGameMode,
               .gameRulesChanged gd.gameRules,
               .animationClear gd,
               .closeServerConn (s.serverConn.map Conn.id),
               .publish addr conn.id]
           ++ conn.deferred.map Event.writePacket)

/-- `Session.Close()`: the `sync.Once` body closes the client connection,
closes the backend connection if one exists, and removes the session from
the registry; a second call is a no-op. -/
def closeSession (s : SessionState) : SessionState × List Event :=
  if s.closed then (s, [])
  else
    ({ s with closed := true },
     [Event.closeClientConn]
       ++ (match s.serverConn with
           | some c => [Event.closeServerConn (some c.id)]
           | none => [])
       ++ [Event.removeSession])

/-- `Session.Disconnect(message)`: writes the disconnect notice, then
delegates to `Close`. -/
def disconnect (s : SessionState) (msg : String) : SessionState × List Event :=
  let r := closeSession s
  (r.1, Event.disconnectPacket msg :: r.2)

/-- `NewSession`: constructs the session synchronously and returns it with
the named error result, which the body never assigns; the dial and start-game
relay run in the spawned goroutine (`startupRun`). -/
def newSession (_addr : String) (_latencyInterval : Int) :
    SessionState × Option String :=
  ({ serverAddr := ""
     serverConn := none
     muLocked := false
     transferring := false
     closed := false },
   none)

/-- The asynchronous startup goroutine of `NewSession`: dial, record address
and connection (even on dial failure, where the connection is `nil`), on
dial failure close and abort; relay start-game, on failure close and abort;
then metadata, deferred flush, pumps, latency sampler, registration. -/
def startupRun (s : SessionState) (addr : String) (dialResult : Except String Conn)
    (startGameOk : Bool) : SessionState × List Event :=
  match dialResult with
  | .error _ =>
      let s1 : SessionState := { s with serverAddr := addr, serverConn := none }
      let r := closeSession s1
      (r.1, Event.dial addr :: r.2)
  | .ok conn =>
      let s1 : SessionState := { s with serverAddr := addr, serverConn := some conn }
      if startGameOk then
        (s1,
         [Event.dial addr, Event.startGame conn.gameData, Event.setActorData true]
           ++ conn.deferred.map Event.writePacket
           ++ [Event.startPumps, Event.startLatency, Event.addSession])
      else
        let r := closeSession s1
        (r.1, [Event.dial addr, Event.startGame conn.gameData] ++ r.2)

/-- A sequence of `Transfer` calls run back to back: each element gives the
requested address and the dial oracle for that call. -/
def runTransfers (s : SessionState) (calls : List (String × Except String Conn)) :
    SessionState :=
  calls.foldl (fun st c => (transfer st c.1 c.2).2.1) s

/-- Spec-side definition (for the refinement claim C7, from the spec's
words): the address of the most recent successful `Transfer` call, or the
initial address if none succeeded.  Sequentially a `Transfer` succeeds
exactly when its dial succeeds. -/
def specLastSuccessfulAddr (init : String)
    (calls : List (String × Except String Conn)) : String :=
  calls.foldl (fun a c => match c.2 with | .ok _ => c.1 | .error _ => a) init

/-- A shutdown trigger: a direct `Close` call or a `Disconnect(message)`. -/
inductive ShutOp where
  | close
  | disconnectOp (msg : String)
  deriving Repr, DecidableEq

/-- Run a sequence of shutdown triggers, accumulating their event traces. -/
def runShutdown : SessionState → List ShutOp → SessionState × List Event
  | s, [] => (s, [])
  | s, op :: ops =>
      let r := match op with
        | .close => closeSession s
        | .disconnectOp m => disconnect s m
      let rest := runShutdown r.1 ops
      (rest.1, r.2 ++ rest.2)

/-- Recognizer for the `clearEffects` tracker call. -/
def isClearEffects : Event → Bool
  | .clearEffects => true
  | _ => false

/-- Recognizer for the `clearEntities` tracker call. -/
def isClearEntities : Event → Bool
  | .clearEntities => true
  | _ => false

/-- Recognizer for the `clearBossBars` tracker call. -/
def isClearBossBars : Event → Bool
  | .clearBossBars => true
  | _ => false

/-- Recognizer for the `clearPlayers` tracker call. -/
def isClearPlayers : Event → Bool
  | .clearPlayers => true
  | _ => false

/-- Recognizer for the `clearScoreboards` tracker call. -/
def isClearScoreboards : Event → Bool
  | .clearScoreboards => true
  | _ => false

/-- Recognizer for `LevelChunk` packet writes. -/
def isLevelChunk : Event → Bool
  | .levelChunk _ _ _ _ _ => true
  | _ => false

/-- Recognizer for the close of the client connection. -/
def isCloseClient : Event → Bool
  | .closeClientConn => true
  | _ => false

/-- Recognizer for the close of a backend connection. -/
def isCloseServer : Event → Bool
  | .closeServerConn _ => true
  | _ => false

/-- Recognizer for the registry removal. -/
def isRemoveSession : Event → Bool
  | .removeSession => true
  | _ => false

/-- Concrete game data of a backend whose dimension is the Nether. -/
def gd0 : GameData :=
  { dimension := 1, posX := 0, posZ := 0, entityRuntimeID := 1,
    difficulty := 2, playerGameMode := 0, gameRules := ["showcoordinates"] }

/-- A concrete backend connection reporting Nether game data. -/
def conn0 : Conn := { id := 7, gameData := gd0, deferred := [3, 5] }

/-- A concrete backend connection playing the role of the session's current
backend A. -/
def connA : Conn :=
  { id := 1,
    gameData :=
      { dimension := 0, posX := 33, posZ := -17, entityRuntimeID := 1,
        difficulty := 1, playerGameMode := 1, gameRules := [] },
    deferred := [] }

/-- A concrete overworld backend connection used as a transfer target. -/
def connB : Conn :=
  { id := 2,
    gameData :=
      { dimension := 0, posX := -70, posZ := 129, entityRuntimeID := 4,
        difficulty := 3, playerGameMode := 2, gameRules := ["dodaylightcycle"] },
    deferred := [9] }

/-- A concrete idle session state, active on backend A. -/
def st0 : SessionState :=
  { serverAddr := "a:19132", serverConn := some connA, muLocked := false,
    transferring := false, closed := false }

/-- A concrete session state observed while another transfer handshake is in
flight: the `transferring` flag is held. -/
def stBusy : SessionState :=
  { serverAddr := "a:19132", serverConn := some connA, muLocked := true,
    transferring := true, closed := false }

end Spectrum

namespace Spectrum

/-! ## Helper lemmas -/

/-- Membership in one leg of the flood loop is exactly the interval
`c - 4 ≤ x ≤ c + 4`. -/
theorem mem_chunkSquare (c x : Int) :
    x ∈ chunkSquare c ↔ c - 4 ≤ x ∧ x ≤ c + 4 := by
  simp [chunkSquare, List.range_succ]
  omega

/-- Characterization of the `LevelChunk` packets produced by the flood:
always tagged `dimensionNether`, one sub-chunk, payload built for the
backend's dimension, positions ranging over the 9×9 square around the
chunk containing the reported player position. -/
theorem mem_chunkFlood (gd : GameData) (d x z : Int) (n : Nat) (pd : Int) :
    Event.levelChunk d x z n pd ∈ chunkFloodEvents gd ↔
      (d = dimensionNether ∧ n = 1 ∧ pd = gd.dimension ∧
       Int.fdiv gd.posX 16 - 4 ≤ x ∧ x ≤ Int.fdiv gd.posX 16 + 4 ∧
       Int.fdiv gd.posZ 16 - 4 ≤ z ∧ z ≤ Int.fdiv gd.posZ 16 + 4) := by
  simp only [chunkFloodEvents, List.mem_flatMap, List.mem_map, mem_chunkSquare,
    Event.levelChunk.injEq]
  constructor
  · rintro ⟨x', hx', z', hz', hd, hx, hz, hn, hpd⟩
    subst hd hx hz hn hpd
    exact ⟨rfl, rfl, rfl, by omega, by omega, by omega, by omega⟩
  · rintro ⟨rfl, rfl, rfl, h1, h2, h3, h4⟩
    exact ⟨x, ⟨h1, h2⟩, z, ⟨h3, h4⟩, rfl, rfl, rfl, rfl, rfl⟩

/-- The flood sends 81 chunk packets: a 9×9 square. -/
theorem chunkFlood_length (gd : GameData) : (chunkFloodEvents gd).length = 81 := by
  simp [chunkFloodEvents, chunkSquare, List.range_succ]

/-- Every event of the flood is a `LevelChunk` write, so the flood
contributes 81 to the `LevelChunk` count. -/
theorem chunkFlood_countP_levelChunk (gd : GameData) :
    (chunkFloodEvents gd).countP isLevelChunk = 81 := by
  rw [List.countP_eq_length.mpr, chunkFlood_length]
  intro e he
  simp only [chunkFloodEvents, List.mem_flatMap, List.mem_map] at he
  obtain ⟨x, _, z, _, rfl⟩ := he
  rfl

/-- The flood contains no event other than `LevelChunk` writes. -/
theorem chunkFlood_countP_zero (p : Event → Bool)
    (hp : ∀ d x z n pd, p (Event.levelChunk d x z n pd) = false) (gd : GameData) :
    (chunkFloodEvents gd).countP p = 0 := by
  apply List.countP_eq_zero.mpr
  intro e he
  simp only [chunkFloodEvents, List.mem_flatMap, List.mem_map] at he
  obtain ⟨x, _, z, _, rfl⟩ := he
  simp [hp]

/-- A deferred-packet flush contains only `writePacket` events. -/
theorem writePackets_countP_zero (p : Event → Bool)
    (hp : ∀ pk, p (Event.writePacket pk) = false) (l : List Nat) :
    (l.map Event.writePacket).countP p = 0 := by
  apply List.countP_eq_zero.mpr
  intro e he
  simp only [List.mem_map] at he
  obtain ⟨x, _, rfl⟩ := he
  simp [hp]

/-- The full event trace of a successful `Transfer`, in program order. -/
theorem transfer_trace_eq (s : SessionState) (addr : String) (conn : Conn)
    (h : s.transferring = false) :
    (transfer s addr (.ok conn)).2.2 =
      [.setActorData true, .dial addr, .animationPlay conn.gameData]
        ++ chunkFloodEvents conn.gameData
        ++ [.clearEffects, .clearEntities, .clearBossBars, .clearPlayers,
            .clearScoreboards,
            .movePlayer conn.gameData,
            .stopRaining 10000, .stopThunderstorm,
            .setDifficulty conn.gameData.difficulty,
            .setPlayerGameType conn.gameData.playerGameMode,
            .gameRulesChanged conn.gameData.gameRules,
            .animationClear conn.gameData,
            .closeServerConn (s.serverConn.map Conn.id),
            .publish addr conn.id]
        ++ conn.deferred.map Event.writePacket := by
  simp [transfer, h]

/-- The `LevelChunk` packets of a successful transfer trace are exactly those
of the flood. -/
theorem mem_transfer_trace_levelChunk (s : SessionState) (addr : String)
    (conn : Conn) (h : s.transferring = false) (d x z : Int) (n : Nat) (pd : Int) :
    Event.levelChunk d x z n pd ∈ (transfer s addr (.ok conn)).2.2 ↔
      Event.levelChunk d x z n pd ∈ chunkFloodEvents conn.gameData := by
  rw [transfer_trace_eq s addr conn h]
  simp

/-- A successful transfer writes exactly 81 `LevelChunk` packets. -/
theorem countP_transfer_trace_levelChunk (s : SessionState) (addr : String)
    (conn : Conn) (h : s.transferring = false) :
    (transfer s addr (.ok conn)).2.2.countP isLevelChunk = 81 := by
  rw [transfer_trace_eq s addr conn h]
  rw [List.countP_append, List.countP_append, List.countP_append]
  rw [chunkFlood_countP_levelChunk]
  rw [writePackets_countP_zero isLevelChunk (fun _ => rfl)]
  rfl

/-- Sequential `Transfer` runs starting from an idle session track the
address of the last successful call (helper for C7). -/
theorem runTransfers_addr (calls : List (String × Except String Conn)) :
    ∀ s : SessionState, s.transferring = false →
      (runTransfers s calls).serverAddr = specLastSuccessfulAddr s.serverAddr calls := by
  induction calls with
  | nil => intro s h; rfl
  | cons c rest ih =>
      intro s h
      obtain ⟨a, d⟩ := c
      have hfold : runTransfers s ((a, d) :: rest) =
          runTransfers (transfer s a d).2.1 rest := rfl
      cases d with
      | error e =>
          rw [hfold]
          have h2 : (transfer s a (Except.error e)).2.1.transferring = false := by
            simp [transfer, h]
          rw [ih _ h2]
          have h3 : (transfer s a (Except.error e)).2.1.serverAddr = s.serverAddr := by
            simp [transfer, h]
          rw [h3]
          rfl
      | ok conn =>
          rw [hfold]
          have h2 : (transfer s a (Except.ok conn)).2.1.transferring = false := by
            simp [transfer, h]
          rw [ih _ h2]
          have h3 : (transfer s a (Except.ok conn)).2.1.serverAddr = a := by
            simp [transfer, h]
          rw [h3]
          rfl

/-- A `Close` on an already-closed session does nothing and emits nothing. -/
theorem closeSession_of_closed (s : SessionState) (h : s.closed = true) :
    closeSession s = (s, []) := by
  simp [closeSession, h]

/-- The state after the once-body of `Close` has run. -/
theorem closeSession_fst (s : SessionState) (h : s.closed = false) :
    (closeSession s).1 = { s with closed := true } := by
  simp [closeSession, h]

/-- Shutdown triggers on a closed session leave the state unchanged. -/
theorem runShutdown_fst_closed (ops : List ShutOp) :
    ∀ s : SessionState, s.closed = true → (runShutdown s ops).1 = s := by
  induction ops with
  | nil => intro s h; rfl
  | cons op rest ih =>
      intro s h
      cases op with
      | close =>
          show (runShutdown (closeSession s).1 rest).1 = s
          rw [closeSession_of_closed s h]
          exact ih s h
      | disconnectOp m =>
          show (runShutdown (closeSession s).1 rest).1 = s
          rw [closeSession_of_closed s h]
          exact ih s h

/-- Shutdown triggers on a closed session emit no teardown events: only the
disconnect notices survive. -/
theorem countP_runShutdown_closed (p : Event → Bool)
    (hp : ∀ m, p (Event.disconnectPacket m) = false) (ops : List ShutOp) :
    ∀ s : SessionState, s.closed = true → (runShutdown s ops).2.countP p = 0 := by
  induction ops with
  | nil => intro s h; rfl
  | cons op rest ih =>
      intro s h
      cases op with
      | close =>
          have hc : closeSession s = (s, []) := by simp [closeSession, h]
          simp [runShutdown, hc, ih s h]
      | disconnectOp m =>
          have hc : closeSession s = (s, []) := by simp [closeSession, h]
          simp [runShutdown, disconnect, hc, List.countP_cons, hp, ih s h]

/-- Over any nonempty shutdown sequence on an open session, the teardown
events are exactly those of the first trigger's once-body. -/
theorem countP_runShutdown_head (p : Event → Bool)
    (hp : ∀ m, p (Event.disconnectPacket m) = false) (s : SessionState)
    (ops : List ShutOp) (h1 : s.closed = false) (h2 : ops ≠ []) :
    (runShutdown s ops).2.countP p = (closeSession s).2.countP p := by
  cases ops with
  | nil => exact absurd rfl h2
  | cons op rest =>
      have htail :=
        countP_runShutdown_closed p hp rest { s with closed := true } rfl
      cases op with
      | close =>
          show ((closeSession s).2 ++
              (runShutdown (closeSession s).1 rest).2).countP p = _
          rw [List.countP_append, closeSession_fst s h1, htail]
          simp
      | disconnectOp m =>
          show ((Event.disconnectPacket m :: (closeSession s).2) ++
              (runShutdown (closeSession s).1 rest).2).countP p = _
          rw [List.countP_append, List.countP_cons, closeSession_fst s h1, htail,
            hp]
          simp

end Spectrum

namespace Spectrum

/-! ## Claim theorems -/

/-- Claim C1: if the dial inside `Transfer(addr)` fails, `Transfer` returns
that dial error, the session's backend connection and backend address are
unchanged, none of the five tracker-clear operations is invoked, and the
only client-visible mutation already sent (the AI-suppressing metadata
packet) is rolled back by a restoring metadata packet sent last before
returning: the trace is exactly suppress, dial, restore. -/
theorem transfer_dial_failure_rolls_back (s : SessionState) (addr e : String)
    (h : s.transferring = false) :
    (transfer s addr (.error e)).1 = some (.dialError e) ∧
    (transfer s addr (.error e)).2.1.serverAddr = s.serverAddr ∧
    (transfer s addr (.error e)).2.1.serverConn = s.serverConn ∧
    (transfer s addr (.error e)).2.2 =
      [.setActorData true, .dial addr, .setActorData false] := by
  simp [transfer, h]

/-- Witness for C1 at a concrete idle session. -/
theorem transfer_dial_failure_rolls_back_witness :
    st0.transferring = false ∧
    ((transfer st0 "b:19132" (.error "connection refused")).1 =
        some (.dialError "connection refused") ∧
     (transfer st0 "b:19132" (.error "connection refused")).2.1.serverAddr =
        st0.serverAddr ∧
     (transfer st0 "b:19132" (.error "connection refused")).2.1.serverConn =
        st0.serverConn ∧
     (transfer st0 "b:19132" (.error "connection refused")).2.2 =
        [.setActorData true, .dial "b:19132", .setActorData false]) :=
  ⟨rfl, transfer_dial_failure_rolls_back st0 "b:19132" "connection refused" rfl⟩

/-- Claim C2: a `Transfer` call arriving while the `transferring` flag is
set fails immediately with the "already transferring" error and performs no
side effects: the state is unchanged and the trace is empty (no packet, no
dial). -/
theorem transfer_conflict_rejected (s : SessionState) (addr : String)
    (d : Except String Conn) (h : s.transferring = true) :
    transfer s addr d = (some .alreadyTransferring, s, []) := by
  simp [transfer, h]

/-- Witness for C2 at a concrete session with a transfer in flight. -/
theorem transfer_conflict_rejected_witness :
    stBusy.transferring = true ∧
    transfer stBusy "c:19132" (.ok conn0) = (some .alreadyTransferring, stBusy, []) :=
  ⟨rfl, transfer_conflict_rejected stBusy "c:19132" (.ok conn0) rfl⟩

/-- Claim C3: a successful `Transfer` emits its client-visible effects in
exactly the order of the spec's section 4.2 — metadata suppression, dial,
animation Play with the new backend's game data, the synthetic chunk flood,
the five tracker clears, the position reset, the weather stops, difficulty,
game mode, game rules, animation Clear, close of the previous backend
connection, publication of the new address and connection, and the deferred
flush in arrival order — and each tracker clear occurs exactly once in the
whole trace. -/
theorem transfer_success_event_order (s : SessionState) (addr : String)
    (conn : Conn) (h : s.transferring = false) :
    (transfer s addr (.ok conn)).1 = none ∧
    (transfer s addr (.ok conn)).2.2 =
      [.setActorData true, .dial addr, .animationPlay conn.gameData]
        ++ chunkFloodEvents conn.gameData
        ++ [.clearEffects, .clearEntities, .clearBossBars, .clearPlayers,
            .clearScoreboards,
            .movePlayer conn.gameData,
            .stopRaining 10000, .stopThunderstorm,
            .setDifficulty conn.gameData.difficulty,
            .setPlayerGameType conn.gameData.playerGameMode,
            .gameRulesChanged conn.gameData.gameRules,
            .animationClear conn.gameData,
            .closeServerConn (s.serverConn.map Conn.id),
            .publish addr conn.id]
        ++ conn.deferred.map Event.writePacket ∧
    (transfer s addr (.ok conn)).2.2.countP isClearEffects = 1 ∧
    (transfer s addr (.ok conn)).2.2.countP isClearEntities = 1 ∧
    (transfer s addr (.ok conn)).2.2.countP isClearBossBars = 1 ∧
    (transfer s addr (.ok conn)).2.2.countP isClearPlayers = 1 ∧
    (transfer s addr (.ok conn)).2.2.countP isClearScoreboards = 1 := by
  refine ⟨by simp [transfer, h], transfer_trace_eq s addr conn h, ?_, ?_, ?_, ?_, ?_⟩
  · simp [transfer, h, List.countP_append, List.countP_cons, isClearEffects,
      chunkFlood_countP_zero isClearEffects (fun _ _ _ _ _ => rfl),
      writePackets_countP_zero isClearEffects (fun _ => rfl)]
  · simp [transfer, h, List.countP_append, List.countP_cons, isClearEntities,
      chunkFlood_countP_zero isClearEntities (fun _ _ _ _ _ => rfl),
      writePackets_countP_zero isClearEntities (fun _ => rfl)]
  · simp [transfer, h, List.countP_append, List.countP_cons, isClearBossBars,
      chunkFlood_countP_zero isClearBossBars (fun _ _ _ _ _ => rfl),
      writePackets_countP_zero isClearBossBars (fun _ => rfl)]
  · simp [transfer, h, List.countP_append, List.countP_cons, isClearPlayers,
      chunkFlood_countP_zero isClearPlayers (fun _ _ _ _ _ => rfl),
      writePackets_countP_zero isClearPlayers (fun _ => rfl)]
  · simp [transfer, h, List.countP_append, List.countP_cons, isClearScoreboards,
      chunkFlood_countP_zero isClearScoreboards (fun _ _ _ _ _ => rfl),
      writePackets_countP_zero isClearScoreboards (fun _ => rfl)]

/-- Witness for C3: transfer of the concrete session on backend A to the
concrete backend B. -/
theorem transfer_success_event_order_witness :
    st0.transferring = false ∧
    ((transfer st0 "b:19132" (.ok connB)).1 = none ∧
     (transfer st0 "b:19132" (.ok connB)).2.2 =
       [.setActorData true, .dial "b:19132", .animationPlay connB.gameData]
         ++ chunkFloodEvents connB.gameData
         ++ [.clearEffects, .clearEntities, .clearBossBars, .clearPlayers,
             .clearScoreboards,
             .movePlayer connB.gameData,
             .stopRaining 10000, .stopThunderstorm,
             .setDifficulty connB.gameData.difficulty,
             .setPlayerGameType connB.gameData.playerGameMode,
             .gameRulesChanged connB.gameData.gameRules,
             .animationClear connB.gameData,
             .closeServerConn (st0.serverConn.map Conn.id),
             .publish "b:19132" connB.id]
         ++ connB.deferred.map Event.writePacket ∧
     (transfer st0 "b:19132" (.ok connB)).2.2.countP isClearEffects = 1 ∧
     (transfer st0 "b:19132" (.ok connB)).2.2.countP isClearEntities = 1 ∧
     (transfer st0 "b:19132" (.ok connB)).2.2.countP isClearBossBars = 1 ∧
     (transfer st0 "b:19132" (.ok connB)).2.2.countP isClearPlayers = 1 ∧
     (transfer st0 "b:19132" (.ok connB)).2.2.countP isClearScoreboards = 1) :=
  ⟨rfl, transfer_success_event_order st0 "b:19132" connB rfl⟩

end Spectrum

namespace Spectrum

/-- Counterexample to claim C4: the synthetic chunk packets are always
tagged `packet.DimensionNether`, so when the new backend's dimension is
itself the Nether the tag equals the target dimension.  Concretely, the
transfer of the idle session to the Nether backend `conn0` writes a chunk
packet whose dimension tag equals the target dimension, refuting "every one
of these synthetic chunk packets is tagged for a dimension different from
the target dimension". -/
theorem transfer_chunk_dimension_counterexample :
    ¬ (∀ (d x z : Int) (n : Nat) (pd : Int),
        Event.levelChunk d x z n pd ∈ (transfer st0 "b:19132" (.ok conn0)).2.2 →
          d ≠ conn0.gameData.dimension) :=
  fun hall =>
    hall conn0.gameData.dimension 0 0 1 conn0.gameData.dimension (by decide) rfl

/-- Claim C4 as amended: on a successful `Transfer`, the synthetic chunk
flood sends exactly one empty-chunk packet per position of the 9×9 chunk
square (radius 4) centered on the chunk containing the new backend's
reported player position, and every such packet is tagged with the constant
Nether dimension — which differs from the target dimension whenever the new
backend's dimension is not the Nether. -/
theorem transfer_chunk_flood_amended (s : SessionState) (addr : String)
    (conn : Conn) (h : s.transferring = false) :
    (∀ (d x z : Int) (n : Nat) (pd : Int),
        Event.levelChunk d x z n pd ∈ (transfer s addr (.ok conn)).2.2 ↔
          (d = dimensionNether ∧ n = 1 ∧ pd = conn.gameData.dimension ∧
           Int.fdiv conn.gameData.posX 16 - 4 ≤ x ∧
           x ≤ Int.fdiv conn.gameData.posX 16 + 4 ∧
           Int.fdiv conn.gameData.posZ 16 - 4 ≤ z ∧
           z ≤ Int.fdiv conn.gameData.posZ 16 + 4)) ∧
    (transfer s addr (.ok conn)).2.2.countP isLevelChunk = 81 ∧
    (conn.gameData.dimension ≠ dimensionNether →
      ∀ (d x z : Int) (n : Nat) (pd : Int),
        Event.levelChunk d x z n pd ∈ (transfer s addr (.ok conn)).2.2 →
          d ≠ conn.gameData.dimension) := by
  refine ⟨?_, countP_transfer_trace_levelChunk s addr conn h, ?_⟩
  · intro d x z n pd
    rw [mem_transfer_trace_levelChunk s addr conn h]
    exact mem_chunkFlood conn.gameData d x z n pd
  · intro hdim d x z n pd hmem
    have := (mem_transfer_trace_levelChunk s addr conn h d x z n pd).mp hmem
    have := (mem_chunkFlood conn.gameData d x z n pd).mp this
    rcases this with ⟨rfl, -, -, -⟩
    exact fun heq => hdim heq.symm

/-- Witness for the amended C4: transfer of the concrete idle session to the
concrete overworld backend B, where the inner implication applies because
B's dimension (overworld) is not the Nether. -/
theorem transfer_chunk_flood_amended_witness :
    st0.transferring = false ∧
    ((∀ (d x z : Int) (n : Nat) (pd : Int),
        Event.levelChunk d x z n pd ∈ (transfer st0 "b:19132" (.ok connB)).2.2 ↔
          (d = dimensionNether ∧ n = 1 ∧ pd = connB.gameData.dimension ∧
           Int.fdiv connB.gameData.posX 16 - 4 ≤ x ∧
           x ≤ Int.fdiv connB.gameData.posX 16 + 4 ∧
           Int.fdiv connB.gameData.posZ 16 - 4 ≤ z ∧
           z ≤ Int.fdiv connB.gameData.posZ 16 + 4)) ∧
     (transfer st0 "b:19132" (.ok connB)).2.2.countP isLevelChunk = 81 ∧
     (connB.gameData.dimension ≠ dimensionNether →
       ∀ (d x z : Int) (n : Nat) (pd : Int),
         Event.levelChunk d x z n pd ∈ (transfer st0 "b:19132" (.ok connB)).2.2 →
           d ≠ connB.gameData.dimension)) :=
  ⟨rfl, transfer_chunk_flood_amended st0 "b:19132" connB rfl⟩

/-- Claim C5: Close is idempotent.  Over any nonempty sequence of shutdown
triggers (direct Close calls or Disconnects) starting from an open session,
the teardown body runs exactly once: exactly one close of the client
connection, exactly one removal from the session directory, exactly one
close of the backend connection when one exists and none otherwise (hence
at most one), and after the sequence the state is the original state marked
closed, on which a further Close is a no-op. -/
theorem close_idempotent_teardown_once (s : SessionState) (ops : List ShutOp)
    (h1 : s.closed = false) (h2 : ops ≠ []) :
    (runShutdown s ops).2.countP isCloseClient = 1 ∧
    (runShutdown s ops).2.countP isRemoveSession = 1 ∧
    (runShutdown s ops).2.countP isCloseServer =
      (if s.serverConn.isSome then 1 else 0) ∧
    (runShutdown s ops).2.countP isCloseServer ≤ 1 ∧
    (runShutdown s ops).1 = { s with closed := true } ∧
    closeSession (runShutdown s ops).1 = ((runShutdown s ops).1, []) := by
  have hfst : (runShutdown s ops).1 = { s with closed := true } := by
    cases ops with
    | nil => exact absurd rfl h2
    | cons op rest =>
        cases op with
        | close =>
            show (runShutdown (closeSession s).1 rest).1 = _
            rw [closeSession_fst s h1]
            exact runShutdown_fst_closed rest _ rfl
        | disconnectOp m =>
            show (runShutdown (closeSession s).1 rest).1 = _
            rw [closeSession_fst s h1]
            exact runShutdown_fst_closed rest _ rfl
  refine ⟨?_, ?_, ?_, ?_, hfst, ?_⟩
  · rw [countP_runShutdown_head isCloseClient (fun _ => rfl) s ops h1 h2]
    cases hsc : s.serverConn <;>
      simp [closeSession, h1, hsc, List.countP_cons, isCloseClient]
  · rw [countP_runShutdown_head isRemoveSession (fun _ => rfl) s ops h1 h2]
    cases hsc : s.serverConn <;>
      simp [closeSession, h1, hsc, List.countP_cons, isRemoveSession]
  · rw [countP_runShutdown_head isCloseServer (fun _ => rfl) s ops h1 h2]
    cases hsc : s.serverConn <;>
      simp [closeSession, h1, hsc, List.countP_cons, isCloseServer]
  · rw [countP_runShutdown_head isCloseServer (fun _ => rfl) s ops h1 h2]
    cases hsc : s.serverConn <;>
      simp [closeSession, h1, hsc, List.countP_cons, isCloseServer]
  · rw [hfst]
    exact closeSession_of_closed _ rfl

/-- Witness for C5: three racing triggers (Close, Disconnect, Close) on the
concrete open session tear it down exactly once. -/
theorem close_idempotent_teardown_once_witness :
    st0.closed = false ∧
    ([ShutOp.close, ShutOp.disconnectOp "bye", ShutOp.close] :
        List ShutOp) ≠ [] ∧
    ((runShutdown st0 [ShutOp.close, ShutOp.disconnectOp "bye",
        ShutOp.close]).2.countP isCloseClient = 1 ∧
     (runShutdown st0 [ShutOp.close, ShutOp.disconnectOp "bye",
        ShutOp.close]).2.countP isRemoveSession = 1 ∧
     (runShutdown st0 [ShutOp.close, ShutOp.disconnectOp "bye",
        ShutOp.close]).2.countP isCloseServer =
       (if st0.serverConn.isSome then 1 else 0) ∧
     (runShutdown st0 [ShutOp.close, ShutOp.disconnectOp "bye",
        ShutOp.close]).2.countP isCloseServer ≤ 1 ∧
     (runShutdown st0 [ShutOp.close, ShutOp.disconnectOp "bye",
        ShutOp.close]).1 = { st0 with closed := true } ∧
     closeSession (runShutdown st0 [ShutOp.close, ShutOp.disconnectOp "bye",
        ShutOp.close]).1 =
       ((runShutdown st0 [ShutOp.close, ShutOp.disconnectOp "bye",
          ShutOp.close]).1, [])) :=
  ⟨rfl, List.cons_ne_nil _ _,
   close_idempotent_teardown_once st0
     [ShutOp.close, ShutOp.disconnectOp "bye", ShutOp.close] rfl
     (List.cons_ne_nil _ _)⟩

end Spectrum

namespace Spectrum

/-- Claim C6: if the initial dial or the start-game relay fails during the
asynchronous startup sequence of an open session, the session ends closed,
it is never added to the directory, the packet pumps and the latency
sampler are never started, and no packet is forwarded to the client. -/
theorem startup_failure_aborts (s : SessionState) (addr : String)
    (dialResult : Except String Conn) (startGameOk : Bool)
    (hc : s.closed = false)
    (hfail : dialResult.isOk = false ∨ startGameOk = false) :
    (startupRun s addr dialResult startGameOk).1.closed = true ∧
    Event.addSession ∉ (startupRun s addr dialResult startGameOk).2 ∧
    Event.startPumps ∉ (startupRun s addr dialResult startGameOk).2 ∧
    Event.startLatency ∉ (startupRun s addr dialResult startGameOk).2 ∧
    ∀ pk, Event.writePacket pk ∉ (startupRun s addr dialResult startGameOk).2 := by
  cases dialResult with
  | error e => simp [startupRun, closeSession, hc]
  | ok conn =>
      cases startGameOk with
      | false => simp [startupRun, closeSession, hc]
      | true => simp [Except.isOk, Except.toBool] at hfail

/-- Witness for C6: a fresh session whose initial dial fails. -/
theorem startup_failure_aborts_witness :
    (newSession "a:19132" 50).1.closed = false ∧
    ((Except.error "connection refused" : Except String Conn).isOk = false ∨
      (true : Bool) = false) ∧
    ((startupRun (newSession "a:19132" 50).1 "a:19132"
        (.error "connection refused") true).1.closed = true ∧
     Event.addSession ∉ (startupRun (newSession "a:19132" 50).1 "a:19132"
        (.error "connection refused") true).2 ∧
     Event.startPumps ∉ (startupRun (newSession "a:19132" 50).1 "a:19132"
        (.error "connection refused") true).2 ∧
     Event.startLatency ∉ (startupRun (newSession "a:19132" 50).1 "a:19132"
        (.error "connection refused") true).2 ∧
     ∀ pk, Event.writePacket pk ∉ (startupRun (newSession "a:19132" 50).1
        "a:19132" (.error "connection refused") true).2) :=
  ⟨rfl, Or.inl rfl,
   startup_failure_aborts (newSession "a:19132" 50).1 "a:19132"
     (.error "connection refused") true rfl (Or.inl rfl)⟩

/-- Claim C7: after a started session (whatever the outcome of its startup
dial and start-game relay) performs any sequence of `Transfer` calls, the
reported backend address is the address argument of the most recent
successful call, or the address passed to `NewSession` if none succeeded;
failed calls never change it. -/
theorem transfer_address_last_success (a : String) (li : Int)
    (d : Except String Conn) (g : Bool)
    (calls : List (String × Except String Conn)) :
    (runTransfers (startupRun (newSession a li).1 a d g).1 calls).serverAddr =
      specLastSuccessfulAddr a calls := by
  have h0 : (startupRun (newSession a li).1 a d g).1.transferring = false := by
    cases d <;> cases g <;> simp [startupRun, newSession, closeSession]
  have h1 : (startupRun (newSession a li).1 a d g).1.serverAddr = a := by
    cases d <;> cases g <;> simp [startupRun, newSession, closeSession]
  rw [runTransfers_addr calls _ h0, h1]

/-- Counterexample to claim C8: on the concurrency-conflict exit path the
`transferring` flag is not false after `Transfer` returns.  Concretely, a
`Transfer` rejected because another handshake is in flight returns while
the flag — owned by the in-flight transfer — is still set. -/
theorem transfer_flag_conflict_counterexample :
    (transfer stBusy "b:19132" (.error "connection refused")).1 =
      some TransferError.alreadyTransferring ∧
    ¬ ((transfer stBusy "b:19132"
        (.error "connection refused")).2.1.transferring = false) := by
  decide

/-- Claim C8 as amended: on the exit paths of a `Transfer` that passed the
initial flag check (dial failure and success), the `transferring` flag is
false after the call and the exclusive lock on the backend-connection field
has been released, so a failed or completed transfer never blocks a later
`Transfer` call (its error is never the conflict error); the
concurrency-conflict rejection leaves the session state — including the
flag held by the in-flight transfer — unchanged. -/
theorem transfer_flag_cleared_amended (s : SessionState) (addr : String)
    (d : Except String Conn) (h : s.transferring = false) :
    (transfer s addr d).2.1.transferring = false ∧
    (transfer s addr d).2.1.muLocked = false ∧
    (∀ (addr2 : String) (d2 : Except String Conn),
      (transfer (transfer s addr d).2.1 addr2 d2).1 ≠
        some TransferError.alreadyTransferring) ∧
    (∀ s2 : SessionState, s2.transferring = true → (transfer s2 addr d).2.1 = s2) := by
  have h1 : (transfer s addr d).2.1.transferring = false := by
    cases d <;> simp [transfer, h]
  have h2 : (transfer s addr d).2.1.muLocked = false := by
    cases d <;> simp [transfer, h]
  refine ⟨h1, h2, ?_, ?_⟩
  · intro addr2 d2
    generalize hgen : (transfer s addr d).2.1 = t at h1
    cases d2 <;> simp [transfer, h1]
  · intro s2 hs2
    simp [transfer, hs2]

/-- Witness for the amended C8 at a concrete idle session and failing dial. -/
theorem transfer_flag_cleared_amended_witness :
    st0.transferring = false ∧
    ((transfer st0 "b:19132" (.error "timeout")).2.1.transferring = false ∧
     (transfer st0 "b:19132" (.error "timeout")).2.1.muLocked = false ∧
     (∀ (addr2 : String) (d2 : Except String Conn),
       (transfer (transfer st0 "b:19132" (.error "timeout")).2.1 addr2 d2).1 ≠
         some TransferError.alreadyTransferring) ∧
     (∀ s2 : SessionState, s2.transferring = true →
       (transfer s2 "b:19132" (.error "timeout")).2.1 = s2)) :=
  ⟨rfl, transfer_flag_cleared_amended st0 "b:19132" (.error "timeout") rfl⟩

/-- Claim C9: `Close` on an open session whose backend connection was never
established (the field is nil) skips the backend-close step and still
completes the remaining teardown: the once-body emits exactly the client
close and the directory removal, and marks the session closed. -/
theorem close_skips_absent_backend (s : SessionState)
    (h1 : s.serverConn = none) (h2 : s.closed = false) :
    closeSession s =
      ({ s with closed := true }, [Event.closeClientConn, Event.removeSession]) := by
  simp [closeSession, h1, h2]

/-- Witness for C9: a freshly constructed session (no backend dialed yet). -/
theorem close_skips_absent_backend_witness :
    (newSession "a:19132" 50).1.serverConn = none ∧
    (newSession "a:19132" 50).1.closed = false ∧
    closeSession (newSession "a:19132" 50).1 =
      ({ (newSession "a:19132" 50).1 with closed := true },
       [Event.closeClientConn, Event.removeSession]) :=
  ⟨rfl, rfl, close_skips_absent_backend (newSession "a:19132" 50).1 rfl rfl⟩

/-- Claim C10: `NewSession` never returns a non-nil error — the named error
result is returned unassigned while all failure reporting happens
asynchronously — so a caller checking it can never observe a startup
failure. -/
theorem newSession_error_always_nil (addr : String) (latencyInterval : Int) :
    (newSession addr latencyInterval).2 = none := rfl

end Spectrum
